import Mathlib

/-!
Shallow embedding of the finwise backend's trade-execution and
portfolio-valuation engine (`src/main.py`, data model in `src/models.py`).

Conventions of the embedding:
* Python `float` money/quantity values are modelled as exact rationals (`ℚ`);
  the spec states that monetary values are rounded only at presentation time,
  and the presentation-only `round(x, 2)` calls of the HTTP responses are
  not modelled.
* External effects are passed as parameters: the yfinance quote
  (`get_current_price`) becomes an `Option ℚ` argument, the USD→INR rate
  (`get_usd_to_inr_rate`) becomes a `ℚ` argument, the wall clock becomes an
  explicit IST local time, and a `commitFails` flag models an exception
  raised by `db.commit()` (whose handler calls `db.rollback()`).
* The SQLAlchemy rows owned by one user are collected in a `World`:
  the optional `Portfolio` row (with its `Holding` rows) and the
  `Transaction` ledger.  `id`/`user_id`/`timestamp` bookkeeping columns
  carry no trade data and are omitted.
-/

namespace Finwise

/-! ### Python string primitives

The handlers normalize symbols with `.upper().strip()`, classify them with
`.endswith(...)` and `"..." in ...` checks.  These are modelled by structural
recursion over the character list so that they compute by `decide`. -/

/-- Model of Python `str.upper` on a character list (symbols are ASCII). -/
def upChars : List Char → List Char
  | [] => []
  | c :: cs => c.toUpper :: upChars cs

/-- Model of Python `str.upper`. -/
def upStr (s : String) : String := ⟨upChars s.data⟩

/-- Model of Python `str.strip` (drop leading and trailing whitespace). -/
def stripStr (s : String) : String :=
  ⟨((s.data.dropWhile Char.isWhitespace).reverse.dropWhile Char.isWhitespace).reverse⟩

/-- Symbol normalization done by the trade handlers: `.upper().strip()`. -/
def normSymbol (s : String) : String := stripStr (upStr s)

/-- Model of the Python substring test `pat in s` on character lists. -/
def containsChars (pat : List Char) : List Char → Bool
  | [] => pat.isEmpty
  | c :: cs => List.isPrefixOf pat (c :: cs) || containsChars pat cs

/-- Model of the Python substring test `pat in s`. -/
def strContains (s pat : String) : Bool := containsChars pat.data s.data

/-- Model of Python `s.endswith(suf)`. -/
def strEndsWith (s suf : String) : Bool :=
  List.isPrefixOf suf.data.reverse s.data.reverse

/-! ### Symbol suffix checks shared by `is_market_open` and `is_us_stock` -/

/-- Crypto pair markers: `"-USD" in symbol or "-INR" in symbol`. -/
def hasCryptoMarker (s : String) : Bool :=
  strContains s "-USD" || strContains s "-INR"

/-- Indian exchange suffixes: `symbol.endswith(".NS") or symbol.endswith(".BO")`. -/
def hasIndianSuffix (s : String) : Bool :=
  strEndsWith s ".NS" || strEndsWith s ".BO"

/-! ### Market calendar (`is_market_open`, main.py lines 1171-1204) -/

/-- An instant of IST local time, as produced by `datetime.now(Asia/Kolkata)`:
Python `weekday()` is 0 for Monday through 6 for Sunday. -/
structure ISTTime where
  weekday : Nat
  hour : Nat
  minute : Nat
  second : Nat
  microsecond : Nat
deriving DecidableEq

/-- Time of day in microseconds, the granularity at which the code compares
`now` against `now.replace(hour=.., minute=.., second=0, microsecond=0)`. -/
def todMicros (t : ISTTime) : Nat :=
  ((t.hour * 60 + t.minute) * 60 + t.second) * 1000000 + t.microsecond

/-- NSE/BSE daily open instant, 9:15:00.000000 IST, in microseconds. -/
def nseOpenMicros : Nat := ((9 * 60 + 15) * 60) * 1000000

/-- NSE/BSE daily close instant, 15:30:00.000000 IST, in microseconds. -/
def nseCloseMicros : Nat := ((15 * 60 + 30) * 60) * 1000000

/-- Model of `is_market_open(symbol)`: crypto pairs are always open; Indian
stocks only Monday-Friday between the NSE open and close instants
(both comparisons are `<=` in the source); everything else (US stocks)
is always open.  The wall clock read inside the function is the `now`
parameter. -/
def is_market_open (symbol : String) (now : ISTTime) : Bool :=
  let u := upStr symbol
  if hasCryptoMarker u then true
  else if hasIndianSuffix u then
    if 5 ≤ now.weekday then false
    else decide (nseOpenMicros ≤ todMicros now) && decide (todMicros now ≤ nseCloseMicros)
  else true

/-- Model of `is_us_stock(symbol)` (main.py lines 1207-1223): Indian suffixes
and crypto markers are checked in that order, everything else is a US stock
needing USD→INR conversion. -/
def is_us_stock (symbol : String) : Bool :=
  let u := upStr symbol
  if hasIndianSuffix u then false
  else if hasCryptoMarker u then false
  else true

/-! ### Asset classes

The three-way classification the spec talks about.  `classifyMarketCalendar`
reifies the branch order of `is_market_open` (crypto markers are tested
first), `classifyCurrencyNormalizer` reifies the branch order of
`is_us_stock` (Indian suffixes are tested first, per the source comments
"Indian stock suffixes - NOT a US stock" / "Crypto patterns - NOT a US
stock").  They are compared in the claim about classification agreement. -/

/-- The three asset classes of the specification. -/
inductive AssetClass
  | domesticEquity
  | crypto
  | foreignEquity
deriving DecidableEq

/-- Asset class as decided by the `is_market_open` branch order. -/
def classifyMarketCalendar (symbol : String) : AssetClass :=
  let u := upStr symbol
  if hasCryptoMarker u then .crypto
  else if hasIndianSuffix u then .domesticEquity
  else .foreignEquity

/-- Asset class as decided by the `is_us_stock` branch order. -/
def classifyCurrencyNormalizer (symbol : String) : AssetClass :=
  let u := upStr symbol
  if hasIndianSuffix u then .domesticEquity
  else if hasCryptoMarker u then .crypto
  else .foreignEquity

/-! ### Data model (`src/models.py`) -/

/-- A `Holding` row: symbol, quantity and weighted average purchase price. -/
structure Holding where
  asset_symbol : String
  quantity : ℚ
  average_buy_price : ℚ
deriving DecidableEq

/-- A `Portfolio` row together with its `Holding` rows
(`portfolio.holdings` relationship). -/
structure Portfolio where
  virtual_cash : ℚ
  holdings : List Holding
deriving DecidableEq

/-- Transaction side, the `type` column ("BUY" or "SELL"). -/
inductive TxnType
  | BUY
  | SELL
deriving DecidableEq

/-- A `Transaction` ledger row.  The columns are exactly those of
`models.Transaction` (minus the `id`/`user_id`/`timestamp` bookkeeping):
symbol, type, quantity, price per share in ₹ (post-conversion), total
amount, brokerage fee.  Note that the model has no column for the USD→INR
rate used by a conversion. -/
structure Transaction where
  symbol : String
  type : TxnType
  quantity : ℚ
  price_per_share : ℚ
  total_amount : ℚ
  brokerage_fee : ℚ
deriving DecidableEq

/-- The datastore rows of one user: whether the user row exists, the
optional portfolio row, and the transaction ledger. -/
structure World where
  userExists : Bool
  portfolio : Option Portfolio
  transactions : List Transaction
deriving DecidableEq

/-- Initial virtual cash, ₹1,00,000. -/
def STARTING_CASH : ℚ := 100000

/-- Brokerage fee rate, 0.1% (`BROKERAGE_FEE_RATE = 0.001`). -/
def BROKERAGE_FEE_RATE : ℚ := 1 / 1000

/-- The portfolio created lazily on first access. -/
def freshPortfolio : Portfolio :=
  { virtual_cash := STARTING_CASH, holdings := [] }

/-- Model of `get_or_create_portfolio` (main.py lines 1097-1115): returns the
existing portfolio, or creates (and commits) one with the starting balance. -/
def get_or_create_portfolio (w : World) : Portfolio × World :=
  match w.portfolio with
  | some p => (p, w)
  | none => (freshPortfolio, { w with portfolio := some freshPortfolio })

/-! ### Holding queries

The handlers look a holding up with
`db.query(Holding).filter(portfolio_id == .., asset_symbol == ..).first()`
and then mutate or delete that row; the data-model invariant is that at most
one row matches.  `findHolding` models `.first()`; the update/delete of the
found row act on the first match. -/

/-- Model of the `.filter(asset_symbol == symbol).first()` query. -/
def findHolding (hs : List Holding) (symbol : String) : Option Holding :=
  hs.find? (fun h => h.asset_symbol == symbol)

/-- Mutate the first holding with the given symbol. -/
def updateFirstHolding (symbol : String) (f : Holding → Holding) :
    List Holding → List Holding
  | [] => []
  | h :: t =>
    if h.asset_symbol == symbol then f h :: t
    else h :: updateFirstHolding symbol f t

/-- Delete the first holding with the given symbol (`db.delete(holding)`). -/
def removeFirstHolding (symbol : String) : List Holding → List Holding
  | [] => []
  | h :: t =>
    if h.asset_symbol == symbol then t
    else h :: removeFirstHolding symbol t

/-- The buy-side mutation of an existing holding: add the bought quantity
and recompute the weighted average
`(old_qty*old_avg + new_qty*new_price) / (old_qty+new_qty)`. -/
def buyUpdate (quantity price_inr : ℚ) (h : Holding) : Holding :=
  { h with
    quantity := h.quantity + quantity
    average_buy_price :=
      (h.quantity * h.average_buy_price + quantity * price_inr) /
        (h.quantity + quantity) }

/-- The partial-sell mutation of a holding: reduce the quantity, leaving
the average buy price unchanged. -/
def sellUpdate (quantity : ℚ) (h : Holding) : Holding :=
  { h with quantity := h.quantity - quantity }

/-! ### Buy order (`execute_buy_order`, main.py lines 1345-1517) -/

/-- The rejection reasons of `execute_buy_order`.  `invalidQuantity` is the
FastAPI/Pydantic `Field(..., gt=0)` validation of `TradeRequest.quantity`,
raised before the handler body runs. -/
inductive BuyError
  | invalidQuantity
  | userNotFound
  | marketClosed
  | priceUnavailable
  | invalidPrice
  | insufficientFunds
  | transactionFailure
deriving DecidableEq

/-- The fields of `TradeExecutionResponse` that carry trade data
(pre-rounding values; `message` omitted). -/
structure BuyOk where
  asset_symbol : String
  quantity : ℚ
  executed_price : ℚ
  brokerage_fee : ℚ
  total_cost : ℚ
  remaining_cash : ℚ
  new_holding_quantity : ℚ
  new_average_price : ℚ
  is_usd_converted : Bool
  usd_to_inr_rate : Option ℚ
deriving DecidableEq

/-- Model of `execute_buy_order`.  Follows the handler line by line:
user lookup; lazy portfolio creation; symbol normalization; market-hours
gate; quote (`rawPrice`); `raw_price <= 0` rejection; USD→INR conversion
for US stocks; `trade_value`/`brokerage_fee`/`total_cost`; funds check
`total_cost > virtual_cash`; then the transactional commit that debits
cash, upserts the holding (weighted average on an existing one) and appends
the ledger row.  If the commit raises (`commitFails`), `db.rollback()`
leaves the state as it was at the start of the `try` block. -/
def execute_buy_order (now : ISTTime) (rawPrice : Option ℚ) (usdInr : ℚ)
    (commitFails : Bool) (asset_symbol : String) (quantity : ℚ) (w : World) :
    Except BuyError BuyOk × World :=
  if quantity ≤ 0 then (.error .invalidQuantity, w)
  else if w.userExists = false then (.error .userNotFound, w)
  else
    let pw := get_or_create_portfolio w
    let p := pw.1
    let w1 := pw.2
    let symbol := normSymbol asset_symbol
    if is_market_open symbol now = false then (.error .marketClosed, w1)
    else
      match rawPrice with
      | none => (.error .priceUnavailable, w1)
      | some raw =>
        if raw ≤ 0 then (.error .invalidPrice, w1)
        else
          let is_usd := is_us_stock symbol
          let price_inr := if is_usd then raw * usdInr else raw
          let trade_value := price_inr * quantity
          let fee := trade_value * BROKERAGE_FEE_RATE
          let total_cost := trade_value + fee
          if total_cost > p.virtual_cash then (.error .insufficientFunds, w1)
          else if commitFails then (.error .transactionFailure, w1)
          else
            let newCash := p.virtual_cash - total_cost
            let oldHolding := findHolding p.holdings symbol
            let newHoldings :=
              match oldHolding with
              | some _ =>
                updateFirstHolding symbol (buyUpdate quantity price_inr) p.holdings
              | none =>
                p.holdings ++
                  [{ asset_symbol := symbol, quantity := quantity,
                     average_buy_price := price_inr }]
            let finalQty :=
              match oldHolding with
              | some h => h.quantity + quantity
              | none => quantity
            let finalAvg :=
              match oldHolding with
              | some h =>
                (h.quantity * h.average_buy_price + quantity * price_inr) /
                  (h.quantity + quantity)
              | none => price_inr
            let txn : Transaction :=
              { symbol := symbol, type := .BUY, quantity := quantity,
                price_per_share := price_inr, total_amount := trade_value,
                brokerage_fee := fee }
            (.ok
              { asset_symbol := symbol, quantity := quantity,
                executed_price := price_inr, brokerage_fee := fee,
                total_cost := total_cost, remaining_cash := newCash,
                new_holding_quantity := finalQty, new_average_price := finalAvg,
                is_usd_converted := is_usd,
                usd_to_inr_rate := if is_usd then some usdInr else none },
             { w1 with
               portfolio := some { virtual_cash := newCash, holdings := newHoldings },
               transactions := w1.transactions ++ [txn] })

/-! ### Sell order (`sell_asset`, main.py lines 1544-1675) -/

/-- The rejection reasons of `sell_asset`, in the order the handler checks
them.  `invalidQuantity` is the Pydantic `Field(..., gt=0)` validation of
`SellRequest.quantity`. -/
inductive SellError
  | invalidQuantity
  | userNotFound
  | noPortfolio
  | marketClosed
  | noHolding
  | insufficientHoldings
  | priceUnavailable
  | transactionFailure
deriving DecidableEq

/-- HTTP status code attached to each sell rejection in the source:
422 is FastAPI's validation error status; `no portfolio` raises 400
(line 1572); `price unavailable` raises 503 (line 1606); commit failure
raises 500 (line 1673); the rest raise 400, except the user lookup's 404. -/
def sellHttpStatus : SellError → Nat
  | .invalidQuantity => 422
  | .userNotFound => 404
  | .noPortfolio => 400
  | .marketClosed => 400
  | .noHolding => 400
  | .insufficientHoldings => 400
  | .priceUnavailable => 503
  | .transactionFailure => 500

/-- The fields of `SellExecutionResponse` that carry trade data
(pre-rounding values; `message` omitted). -/
structure SellOk where
  asset_symbol : String
  quantity_sold : ℚ
  executed_price : ℚ
  gross_proceeds : ℚ
  brokerage_fee : ℚ
  net_proceeds : ℚ
  remaining_cash : ℚ
  remaining_quantity : ℚ
  is_usd_converted : Bool
  usd_to_inr_rate : Option ℚ
deriving DecidableEq

/-- Model of `sell_asset`.  Follows the handler: quantity validation; user
lookup (404); `user.portfolio` check (400); market-hours gate; holding
lookup; quantity-sufficiency check; quote (`rawPrice`, 503 when `None`;
note there is no `raw_price <= 0` rejection on the sell side); USD→INR
conversion; then the transactional commit that credits the net proceeds,
deletes the holding when the whole position is sold (otherwise reduces its
quantity, leaving the average price unchanged) and appends the ledger
row.  A raising commit rolls back to the pre-`try` state. -/
def sell_asset (now : ISTTime) (rawPrice : Option ℚ) (usdInr : ℚ)
    (commitFails : Bool) (symbolIn : String) (quantity : ℚ) (w : World) :
    Except SellError SellOk × World :=
  if quantity ≤ 0 then (.error .invalidQuantity, w)
  else if w.userExists = false then (.error .userNotFound, w)
  else
    match w.portfolio with
    | none => (.error .noPortfolio, w)
    | some p =>
      let symbol := normSymbol symbolIn
      if is_market_open symbol now = false then (.error .marketClosed, w)
      else
        match findHolding p.holdings symbol with
        | none => (.error .noHolding, w)
        | some holding =>
          if holding.quantity < quantity then (.error .insufficientHoldings, w)
          else
            match rawPrice with
            | none => (.error .priceUnavailable, w)
            | some raw =>
              let is_usd := is_us_stock symbol
              let price_inr := if is_usd then raw * usdInr else raw
              if commitFails then (.error .transactionFailure, w)
              else
                let gross := price_inr * quantity
                let fee := gross * BROKERAGE_FEE_RATE
                let net := gross - fee
                let newCash := p.virtual_cash + net
                let fullSell := holding.quantity = quantity
                let newHoldings :=
                  if fullSell then removeFirstHolding symbol p.holdings
                  else updateFirstHolding symbol (sellUpdate quantity) p.holdings
                let remaining : ℚ := if fullSell then 0 else holding.quantity - quantity
                let txn : Transaction :=
                  { symbol := symbol, type := .SELL, quantity := quantity,
                    price_per_share := price_inr, total_amount := gross,
                    brokerage_fee := fee }
                (.ok
                  { asset_symbol := symbol, quantity_sold := quantity,
                    executed_price := price_inr, gross_proceeds := gross,
                    brokerage_fee := fee, net_proceeds := net,
                    remaining_cash := newCash, remaining_quantity := remaining,
                    is_usd_converted := is_usd,
                    usd_to_inr_rate := if is_usd then some usdInr else none },
                 { w with
                   portfolio := some { virtual_cash := newCash, holdings := newHoldings },
                   transactions := w.transactions ++ [txn] })

/-! ### Portfolio reset (`reset_portfolio`, main.py lines 2127-2154) -/

/-- Model of `reset_portfolio`: user lookup (404), lazy portfolio creation,
delete all holdings, restore the starting cash.  Transactions are kept. -/
def reset_portfolio (w : World) : Except Unit Unit × World :=
  if w.userExists = false then (.error (), w)
  else
    let w1 := (get_or_create_portfolio w).2
    (.ok (),
     { w1 with portfolio := some { virtual_cash := STARTING_CASH, holdings := [] } })

/-! ### Portfolio summary (`get_portfolio_summary`, main.py lines 1232-1313) -/

/-- The per-holding fields of `HoldingResponse` (pre-rounding values). -/
structure HoldingView where
  asset_symbol : String
  quantity : ℚ
  average_buy_price : ℚ
  current_price : ℚ
  current_value : ℚ
  profit_loss : ℚ
  profit_loss_percent : ℚ
deriving DecidableEq

/-- Valuation of one holding given its fetched quote (main.py lines
1272-1303): on a successful fetch, convert US-stock quotes to ₹ and compute
value/profit figures; on a failed fetch (`none`), fall back to the average
buy price with zero profit/loss. -/
def valueHolding (usdInr : ℚ) (h : Holding) (rawPrice : Option ℚ) : HoldingView :=
  match rawPrice with
  | some raw =>
    let price_inr := if is_us_stock h.asset_symbol then raw * usdInr else raw
    let current_value := price_inr * h.quantity
    let cost_basis := h.average_buy_price * h.quantity
    { asset_symbol := h.asset_symbol, quantity := h.quantity,
      average_buy_price := h.average_buy_price, current_price := price_inr,
      current_value := current_value,
      profit_loss := current_value - cost_basis,
      profit_loss_percent :=
        if 0 < h.average_buy_price then
          (price_inr - h.average_buy_price) / h.average_buy_price * 100
        else 0 }
  | none =>
    { asset_symbol := h.asset_symbol, quantity := h.quantity,
      average_buy_price := h.average_buy_price,
      current_price := h.average_buy_price,
      current_value := h.average_buy_price * h.quantity,
      profit_loss := 0, profit_loss_percent := 0 }

/-- The fields of `PortfolioSummaryResponse` (pre-rounding values). -/
structure SummaryOk where
  virtual_cash : ℚ
  total_holdings_value : ℚ
  total_portfolio_value : ℚ
  holdings : List HoldingView
deriving DecidableEq

/-- Model of `get_portfolio_summary`: user lookup (404), lazy portfolio
creation, one shared USD→INR rate, concurrent quote fan-out (the fetched
results are the `prices` list, one `Option ℚ` per holding, zipped against
the holdings exactly as the source's `zip(holdings, prices)`), then the
per-holding valuation and the totals. -/
def get_portfolio_summary (prices : List (Option ℚ)) (usdInr : ℚ) (w : World) :
    Except Unit SummaryOk × World :=
  if w.userExists = false then (.error (), w)
  else
    let pw := get_or_create_portfolio w
    let p := pw.1
    let w1 := pw.2
    let views := (p.holdings.zip prices).map (fun hp => valueHolding usdInr hp.1 hp.2)
    let thv := (views.map (fun v => v.current_value)).sum
    (.ok
      { virtual_cash := p.virtual_cash, total_holdings_value := thv,
        total_portfolio_value := p.virtual_cash + thv, holdings := views },
     w1)

/-! ### Operation sequences -/

/-- One committed-or-rejected operation against the trading API, with the
external inputs (clock, quote, FX rate, commit outcome) it observed. -/
inductive TradeOp
  | buy (now : ISTTime) (rawPrice : Option ℚ) (usdInr : ℚ) (commitFails : Bool)
      (symbol : String) (quantity : ℚ)
  | sell (now : ISTTime) (rawPrice : Option ℚ) (usdInr : ℚ) (commitFails : Bool)
      (symbol : String) (quantity : ℚ)
  | reset
deriving DecidableEq

/-- State reached after an operation (rejected operations leave the state
the handler left behind). -/
def applyOp (w : World) : TradeOp → World
  | .buy now rp fx cf s q => (execute_buy_order now rp fx cf s q w).2
  | .sell now rp fx cf s q => (sell_asset now rp fx cf s q w).2
  | .reset => (reset_portfolio w).2

/-- A user with a freshly created portfolio holding the starting balance. -/
def initialWorld : World :=
  { userExists := true, portfolio := some freshPortfolio, transactions := [] }

/-- Run a sequence of operations from the fresh-portfolio state. -/
def runOps (ops : List TradeOp) : World :=
  ops.foldl applyOp initialWorld

/-- An operation's executed sell price (after USD→INR conversion, when the
symbol is a US stock) is nonnegative.  Trivially true for buys and resets:
the buy handler rejects nonpositive raw prices itself, while the sell
handler has no such check. -/
def sellPriceNonneg : TradeOp → Bool
  | .sell _ (some raw) usdInr _ s _ =>
    decide (0 ≤ if is_us_stock (normSymbol s) then raw * usdInr else raw)
  | _ => true

/-- Cash-nonnegativity of a user's state. -/
def cashNonneg (w : World) : Prop :=
  ∀ p, w.portfolio = some p → 0 ≤ p.virtual_cash

/-- Success test for an `Except` result. -/
def isOkE {ε α : Type} : Except ε α → Bool
  | .ok _ => true
  | .error _ => false


/-! ### Concrete fixtures used by witnesses and counterexamples -/

deriving instance DecidableEq for Except

/-- Monday noon IST, a time at which all markets are open. -/
def mondayNoon : ISTTime := ⟨0, 12, 0, 0, 0⟩

/-- Saturday noon IST, a weekend instant. -/
def saturdayNoon : ISTTime := ⟨5, 12, 0, 0, 0⟩

/-- A user holding 1 unit of BTC-INR bought at ₹800, with the full
starting cash. -/
def buyW0 : World :=
  { userExists := true,
    portfolio := some { virtual_cash := 100000,
                        holdings := [⟨"BTC-INR", 1, 800⟩] },
    transactions := [] }

/-- Expected response of buying 1 more unit of BTC-INR at ₹1000 from
`buyW0`: fee ₹1, total ₹1001, weighted average (1·800+1·1000)/2 = ₹900. -/
def buyRes0 : BuyOk :=
  { asset_symbol := "BTC-INR", quantity := 1, executed_price := 1000,
    brokerage_fee := 1, total_cost := 1001, remaining_cash := 98999,
    new_holding_quantity := 2, new_average_price := 900,
    is_usd_converted := false, usd_to_inr_rate := none }

/-- Expected state after that buy. -/
def buyW0' : World :=
  { userExists := true,
    portfolio := some { virtual_cash := 98999,
                        holdings := [⟨"BTC-INR", 2, 900⟩] },
    transactions := [⟨"BTC-INR", .BUY, 1, 1000, 1000, 1⟩] }

/-- A user holding 2 units of BTC-INR at average ₹900 and ₹98,999 cash. -/
def sellW0 : World :=
  { userExists := true,
    portfolio := some { virtual_cash := 98999,
                        holdings := [⟨"BTC-INR", 2, 900⟩] },
    transactions := [] }

/-- Expected response of selling 1 of the 2 BTC-INR units at ₹1000:
gross ₹1000, fee ₹1, net ₹999. -/
def sellRes0 : SellOk :=
  { asset_symbol := "BTC-INR", quantity_sold := 1, executed_price := 1000,
    gross_proceeds := 1000, brokerage_fee := 1, net_proceeds := 999,
    remaining_cash := 99998, remaining_quantity := 1,
    is_usd_converted := false, usd_to_inr_rate := none }

/-- Expected state after that sell: quantity reduced, average unchanged. -/
def sellW0' : World :=
  { userExists := true,
    portfolio := some { virtual_cash := 99998,
                        holdings := [⟨"BTC-INR", 1, 900⟩] },
    transactions := [⟨"BTC-INR", .SELL, 1, 1000, 1000, 1⟩] }

/-- A two-operation sequence: a normal crypto buy followed by a sell whose
quoted price is negative (the sell handler accepts it: it only checks that
the quote is present, not that it is positive). -/
def negQuoteOps : List TradeOp :=
  [.buy mondayNoon (some 1000) 87 false "BTC-INR" 1,
   .sell mondayNoon (some (-200000)) 87 false "BTC-INR" 1]

/-- A user row with no portfolio row yet. -/
def noPortfolioWorld : World :=
  { userExists := true, portfolio := none, transactions := [] }

/-- Response of buying 1 AAPL at native $150 with rate 83:
converted price 150·83 = ₹12450, fee ₹12.45. -/
def aaplRes83 : BuyOk :=
  { asset_symbol := "AAPL", quantity := 1, executed_price := 12450,
    brokerage_fee := 249/20, total_cost := 249249/20,
    remaining_cash := 1750751/20, new_holding_quantity := 1,
    new_average_price := 12450, is_usd_converted := true,
    usd_to_inr_rate := some 83 }

/-- Response of buying 1 AAPL at native $166 with rate 75: the same
converted price ₹12450, so everything except the reported rate agrees
with `aaplRes83`. -/
def aaplRes75 : BuyOk :=
  { aaplRes83 with usd_to_inr_rate := some 75 }

/-- State after either AAPL buy: the two runs are indistinguishable in the
datastore, the ledger row in particular. -/
def aaplW1 : World :=
  { userExists := true,
    portfolio := some { virtual_cash := 1750751/20,
                        holdings := [⟨"AAPL", 1, 12450⟩] },
    transactions := [⟨"AAPL", .BUY, 1, 12450, 12450, 249/20⟩] }

/-- A portfolio summary fixture: ₹500 cash, one crypto holding and one US
stock holding. -/
def summaryW : World :=
  { userExists := true,
    portfolio := some { virtual_cash := 500,
                        holdings := [⟨"BTC-INR", 1, 800⟩, ⟨"AAPL", 2, 8000⟩] },
    transactions := [] }

/-! ### Helper lemmas about the holding-list queries -/

/-- Updating the first holding with a symbol-preserving function commutes
with the first-match query. -/
theorem findHolding_updateFirst (hs : List Holding) (symbol : String)
    (f : Holding → Holding) (hf : ∀ h, (f h).asset_symbol = h.asset_symbol) :
    findHolding (updateFirstHolding symbol f hs) symbol =
      (findHolding hs symbol).map f := by
  induction hs with
  | nil => simp [findHolding, updateFirstHolding]
  | cons h t ih =>
    by_cases hb : h.asset_symbol == symbol
    · simp [findHolding, updateFirstHolding, hb, List.find?, hf]
    · simp only [updateFirstHolding, hb, if_neg, Bool.false_eq_true,
        not_false_eq_true, if_false]
      simp [findHolding, List.find?, hb] at ih ⊢
      exact ih

/-- Appending a matching holding to a list with no match makes it the
first match. -/
theorem findHolding_append_single (hs : List Holding) (symbol : String)
    (h0 : Holding) (hnone : findHolding hs symbol = none)
    (hsym : h0.asset_symbol = symbol) :
    findHolding (hs ++ [h0]) symbol = some h0 := by
  induction hs with
  | nil => simp [findHolding, List.find?, hsym]
  | cons h t ih =>
    simp only [findHolding, List.find?] at hnone ⊢
    cases hb : (h.asset_symbol == symbol) with
    | true => simp [hb] at hnone
    | false =>
      simp only [hb] at hnone ⊢
      exact ih hnone

/-- The buy-side update commutes with the first-match query. -/
theorem findHolding_updateFirst_buy (hs : List Holding) (symbol : String)
    (quantity price_inr : ℚ) :
    findHolding (updateFirstHolding symbol (buyUpdate quantity price_inr) hs) symbol =
      (findHolding hs symbol).map (buyUpdate quantity price_inr) :=
  findHolding_updateFirst hs symbol _ (fun _ => rfl)

/-- The sell-side update commutes with the first-match query. -/
theorem findHolding_updateFirst_sell (hs : List Holding) (symbol : String)
    (quantity : ℚ) :
    findHolding (updateFirstHolding symbol (sellUpdate quantity) hs) symbol =
      (findHolding hs symbol).map (sellUpdate quantity) :=
  findHolding_updateFirst hs symbol _ (fun _ => rfl)

/-- Deleting the first match from a list whose symbols are distinct leaves
no match. -/
theorem findHolding_removeFirst (hs : List Holding) (symbol : String)
    (hnd : (hs.map Holding.asset_symbol).Nodup) :
    findHolding (removeFirstHolding symbol hs) symbol = none := by
  induction hs with
  | nil => simp [findHolding, removeFirstHolding]
  | cons h t ih =>
    simp only [List.map_cons, List.nodup_cons] at hnd
    by_cases hb : h.asset_symbol == symbol
    · simp only [removeFirstHolding, hb, if_pos]
      have hsym : h.asset_symbol = symbol := by
        simpa using hb
      rw [findHolding, List.find?_eq_none]
      intro x hx hxb
      have hxs : x.asset_symbol = symbol := by simpa using hxb
      have hmem : h.asset_symbol ∈ List.map Holding.asset_symbol t := by
        rw [hsym, ← hxs]
        exact List.mem_map_of_mem _ hx
      exact hnd.1 hmem
    · simp only [removeFirstHolding, hb, Bool.false_eq_true, not_false_eq_true,
        if_neg, if_false]
      simp only [findHolding, List.find?, hb] at ih ⊢
      exact ih hnd.2

/-! ### C1: buy-order arithmetic -/

/-- C1.  For every successful buy order, the brokerage fee is 0.1% of
`executedPrice * qty`; the portfolio's remaining cash equals the cash
before the order minus `executedPrice * qty + fee`; and the resulting
holding's average price is the quantity-weighted average
`(oldQty*oldAvg + qty*execPrice) / (oldQty+qty)` of the old position and
the trade when a prior holding existed, and the trade price otherwise
(the "cash before" of a user without a portfolio is the starting balance
of the portfolio created for them during the request). -/
theorem buy_updates_weighted_average_and_cash
    (now : ISTTime) (rawPrice : Option ℚ) (usdInr : ℚ) (commitFails : Bool)
    (symIn : String) (qty : ℚ) (w : World) (res : BuyOk) (w' : World)
    (h : execute_buy_order now rawPrice usdInr commitFails symIn qty w = (.ok res, w')) :
    res.brokerage_fee = res.executed_price * qty * BROKERAGE_FEE_RATE ∧
    ∃ p', w'.portfolio = some p' ∧
      p'.virtual_cash =
        (get_or_create_portfolio w).1.virtual_cash -
          (res.executed_price * qty + res.brokerage_fee) ∧
      ∃ h', findHolding p'.holdings (normSymbol symIn) = some h' ∧
        ((∀ h0, findHolding (get_or_create_portfolio w).1.holdings (normSymbol symIn) = some h0 →
            h'.average_buy_price =
              (h0.quantity * h0.average_buy_price + qty * res.executed_price) /
                (h0.quantity + qty) ∧
            h'.quantity = h0.quantity + qty) ∧
         (findHolding (get_or_create_portfolio w).1.holdings (normSymbol symIn) = none →
            h'.average_buy_price = res.executed_price ∧ h'.quantity = qty)) := by
  simp only [execute_buy_order] at h
  repeat' split at h
  all_goals simp only [Prod.mk.injEq, Except.ok.injEq, reduceCtorEq, false_and] at h
  all_goals (obtain ⟨h1, h2⟩ := h; subst h1; subst h2)
  case _ h0 heq =>
    refine ⟨rfl, _, rfl, rfl, ?_⟩
    rw [findHolding_updateFirst_buy, heq]
    refine ⟨_, rfl, fun h1 hh1 => ?_, fun hnone => Option.noConfusion hnone⟩
    injection hh1 with hh1
    subst hh1
    exact ⟨rfl, rfl⟩
  case _ heq =>
    refine ⟨rfl, _, rfl, rfl, ?_⟩
    rw [findHolding_append_single _ _ _ heq rfl]
    refine ⟨_, rfl, fun h1 hh1 => ?_, fun _ => ⟨rfl, rfl⟩⟩
    rw [heq] at hh1
    exact Option.noConfusion hh1
  case _ h0 heq =>
    refine ⟨rfl, _, rfl, rfl, ?_⟩
    rw [findHolding_updateFirst_buy, heq]
    refine ⟨_, rfl, fun h1 hh1 => ?_, fun hnone => Option.noConfusion hnone⟩
    injection hh1 with hh1
    subst hh1
    exact ⟨rfl, rfl⟩
  case _ heq =>
    refine ⟨rfl, _, rfl, rfl, ?_⟩
    rw [findHolding_append_single _ _ _ heq rfl]
    refine ⟨_, rfl, fun h1 hh1 => ?_, fun _ => ⟨rfl, rfl⟩⟩
    rw [heq] at hh1
    exact Option.noConfusion hh1

/-- C1 witness: buying 1 BTC-INR at ₹1000 on top of 1 unit at ₹800
satisfies the buy-arithmetic theorem at a concrete input. -/
theorem buy_updates_weighted_average_and_cash_witness :
    execute_buy_order mondayNoon (some 1000) 87 false "BTC-INR" 1 buyW0 =
      (.ok buyRes0, buyW0') ∧
    (buyRes0.brokerage_fee = buyRes0.executed_price * 1 * BROKERAGE_FEE_RATE ∧
     ∃ p', buyW0'.portfolio = some p' ∧
       p'.virtual_cash =
         (get_or_create_portfolio buyW0).1.virtual_cash -
           (buyRes0.executed_price * 1 + buyRes0.brokerage_fee) ∧
       ∃ h', findHolding p'.holdings (normSymbol "BTC-INR") = some h' ∧
         ((∀ h0, findHolding (get_or_create_portfolio buyW0).1.holdings (normSymbol "BTC-INR") = some h0 →
             h'.average_buy_price =
               (h0.quantity * h0.average_buy_price + 1 * buyRes0.executed_price) /
                 (h0.quantity + 1) ∧
             h'.quantity = h0.quantity + 1) ∧
          (findHolding (get_or_create_portfolio buyW0).1.holdings (normSymbol "BTC-INR") = none →
             h'.average_buy_price = buyRes0.executed_price ∧ h'.quantity = 1))) := by
  have hn : normSymbol "BTC-INR" = "BTC-INR" := by decide
  have hm : is_market_open "BTC-INR" mondayNoon = true := by decide
  have hu : is_us_stock "BTC-INR" = false := by decide
  have hf : findHolding [(⟨"BTC-INR", 1, 800⟩ : Holding)] "BTC-INR" =
      some ⟨"BTC-INR", 1, 800⟩ := by decide
  have hEval : execute_buy_order mondayNoon (some 1000) 87 false "BTC-INR" 1 buyW0 =
      (.ok buyRes0, buyW0') := by
    norm_num [execute_buy_order, buyW0, buyRes0, buyW0', get_or_create_portfolio,
      BROKERAGE_FEE_RATE, hn, hm, hu, hf, updateFirstHolding, buyUpdate,
      beq_self_eq_true]
  exact ⟨hEval,
    buy_updates_weighted_average_and_cash mondayNoon (some 1000) 87 false
      "BTC-INR" 1 buyW0 buyRes0 buyW0' hEval⟩


/-! ### C2: sell-order arithmetic -/

/-- C2.  For every successful sell order (from a portfolio whose holdings
have distinct symbols, the data-model invariant), the fee is 0.1% of the
gross proceeds, remaining cash equals the cash before plus
`executedPrice * qty - fee`; if the sold quantity equals the held quantity
the holding is absent afterwards, and otherwise the holding's quantity
decreases by exactly the sold quantity with the average buy price
unchanged. -/
theorem sell_updates_cash_and_holding
    (now : ISTTime) (rawPrice : Option ℚ) (usdInr : ℚ) (commitFails : Bool)
    (symIn : String) (qty : ℚ) (w : World) (p : Portfolio) (res : SellOk) (w' : World)
    (hp : w.portfolio = some p)
    (hnd : (p.holdings.map Holding.asset_symbol).Nodup)
    (h : sell_asset now rawPrice usdInr commitFails symIn qty w = (.ok res, w')) :
    res.brokerage_fee = res.executed_price * qty * BROKERAGE_FEE_RATE ∧
    ∃ p', w'.portfolio = some p' ∧
      p'.virtual_cash = p.virtual_cash + (res.executed_price * qty - res.brokerage_fee) ∧
      ∀ h0, findHolding p.holdings (normSymbol symIn) = some h0 →
        ((h0.quantity = qty → findHolding p'.holdings (normSymbol symIn) = none) ∧
         (h0.quantity ≠ qty →
            findHolding p'.holdings (normSymbol symIn) =
              some { h0 with quantity := h0.quantity - qty })) := by
  simp only [sell_asset, hp] at h
  repeat' split at h
  all_goals simp only [Prod.mk.injEq, Except.ok.injEq, reduceCtorEq, false_and] at h
  all_goals (obtain ⟨h1, h2⟩ := h; subst h1; subst h2)
  case _ heq hlt x2q raw hcf husd hfull =>
    refine ⟨rfl, _, rfl, rfl, fun h0 hh0 => ?_⟩
    rw [heq] at hh0
    injection hh0 with hh0
    subst hh0
    exact ⟨fun _ => findHolding_removeFirst _ _ hnd, fun hne => absurd hfull hne⟩
  case _ heq hlt x2q raw hcf husd hne =>
    refine ⟨rfl, _, rfl, rfl, fun h0 hh0 => ?_⟩
    rw [heq] at hh0
    injection hh0 with hh0
    subst hh0
    refine ⟨fun heqq => absurd heqq hne, fun _ => ?_⟩
    rw [findHolding_updateFirst_sell, heq]
    rfl
  case _ heq hlt x2q raw hcf husd hfull =>
    refine ⟨rfl, _, rfl, rfl, fun h0 hh0 => ?_⟩
    rw [heq] at hh0
    injection hh0 with hh0
    subst hh0
    exact ⟨fun _ => findHolding_removeFirst _ _ hnd, fun hne => absurd hfull hne⟩
  case _ heq hlt x2q raw hcf husd hne =>
    refine ⟨rfl, _, rfl, rfl, fun h0 hh0 => ?_⟩
    rw [heq] at hh0
    injection hh0 with hh0
    subst hh0
    refine ⟨fun heqq => absurd heqq hne, fun _ => ?_⟩
    rw [findHolding_updateFirst_sell, heq]
    rfl

/-- C2 witness: partially selling 1 of 2 BTC-INR units at ₹1000 satisfies
the sell-arithmetic theorem at a concrete input. -/
theorem sell_updates_cash_and_holding_witness :
    sell_asset mondayNoon (some 1000) 87 false "BTC-INR" 1 sellW0 =
      (.ok sellRes0, sellW0') ∧
    (sellRes0.brokerage_fee = sellRes0.executed_price * 1 * BROKERAGE_FEE_RATE ∧
     ∃ p', sellW0'.portfolio = some p' ∧
       p'.virtual_cash =
         (98999 : ℚ) + (sellRes0.executed_price * 1 - sellRes0.brokerage_fee) ∧
       ∀ h0, findHolding [(⟨"BTC-INR", 2, 900⟩ : Holding)] (normSymbol "BTC-INR") = some h0 →
         ((h0.quantity = 1 → findHolding p'.holdings (normSymbol "BTC-INR") = none) ∧
          (h0.quantity ≠ 1 →
             findHolding p'.holdings (normSymbol "BTC-INR") =
               some { h0 with quantity := h0.quantity - 1 }))) := by
  have hn : normSymbol "BTC-INR" = "BTC-INR" := by decide
  have hm : is_market_open "BTC-INR" mondayNoon = true := by decide
  have hu : is_us_stock "BTC-INR" = false := by decide
  have hf : findHolding [(⟨"BTC-INR", 2, 900⟩ : Holding)] "BTC-INR" =
      some ⟨"BTC-INR", 2, 900⟩ := by decide
  have hEval : sell_asset mondayNoon (some 1000) 87 false "BTC-INR" 1 sellW0 =
      (.ok sellRes0, sellW0') := by
    norm_num [sell_asset, sellW0, sellRes0, sellW0', BROKERAGE_FEE_RATE,
      hn, hm, hu, hf, updateFirstHolding, sellUpdate, beq_self_eq_true]
  exact ⟨hEval,
    sell_updates_cash_and_holding mondayNoon (some 1000) 87 false "BTC-INR" 1
      sellW0 ⟨98999, [⟨"BTC-INR", 2, 900⟩]⟩ sellRes0 sellW0' rfl (by decide) hEval⟩

/-! ### C3: cash non-negativity -/

/-- A committed buy can only decrease cash to a value the funds check has
already bounded below by zero, so it preserves cash-nonnegativity
regardless of the quoted price. -/
theorem cashNonneg_buy (now : ISTTime) (rawPrice : Option ℚ) (usdInr : ℚ)
    (commitFails : Bool) (s : String) (q : ℚ) (w : World) (hw : cashNonneg w) :
    cashNonneg (execute_buy_order now rawPrice usdInr commitFails s q w).2 := by
  rcases hwp : w.portfolio with _ | p0
  all_goals simp only [execute_buy_order, get_or_create_portfolio, hwp]
  all_goals repeat' split
  all_goals intro p hp
  all_goals first
    | exact hw p hp
    | (injection hp with hp
       subst hp
       simp only [freshPortfolio, STARTING_CASH] at *
       try dsimp only
       linarith)

/-- A committed sell preserves cash-nonnegativity provided its executed
(post-conversion) price is nonnegative; the handler itself never checks
the sign of a sell quote. -/
theorem cashNonneg_sell (now : ISTTime) (rawPrice : Option ℚ) (usdInr : ℚ)
    (commitFails : Bool) (s : String) (q : ℚ) (w : World)
    (hq : ∀ raw, rawPrice = some raw →
      0 ≤ if is_us_stock (normSymbol s) then raw * usdInr else raw)
    (hw : cashNonneg w) :
    cashNonneg (sell_asset now rawPrice usdInr commitFails s q w).2 := by
  rcases hwp : w.portfolio with _ | p0
  · simp only [sell_asset, hwp]
    repeat' split
    all_goals exact hw
  · simp only [sell_asset, hwp]
    split
    next hq0 => exact hw
    next hq0 =>
      split
      next => exact hw
      next =>
        split
        next => exact hw
        next =>
          split
          next => exact hw
          next holding heqf =>
            split
            next => exact hw
            next hlt =>
              split
              next => exact hw
              next raw =>
                split
                next => exact hw
                next hcf =>
                  intro p hp
                  injection hp with hp
                  subst hp
                  have hq1 : 0 < q := not_le.mp hq0
                  have hP : 0 ≤ if is_us_stock (normSymbol s) then raw * usdInr else raw :=
                    hq raw rfl
                  have hPq : 0 ≤ (if is_us_stock (normSymbol s) then raw * usdInr else raw) * q :=
                    mul_nonneg hP hq1.le
                  have h0 : 0 ≤ p0.virtual_cash := hw p0 hwp
                  simp only [BROKERAGE_FEE_RATE]
                  linarith

/-- A reset restores the starting balance, preserving cash-nonnegativity. -/
theorem cashNonneg_reset (w : World) (hw : cashNonneg w) :
    cashNonneg (reset_portfolio w).2 := by
  simp only [reset_portfolio]
  split
  · exact hw
  · intro p hp
    injection hp with hp
    subst hp
    norm_num [STARTING_CASH]

/-- Cash-nonnegativity is preserved along any operation sequence whose
sells all execute at nonnegative prices. -/
theorem cashNonneg_foldl (l : List TradeOp) :
    ∀ w, cashNonneg w → (∀ op ∈ l, sellPriceNonneg op = true) →
      cashNonneg (List.foldl applyOp w l) := by
  induction l with
  | nil => intro w hw _; simpa using hw
  | cons op t ih =>
    intro w hw hops
    simp only [List.foldl_cons]
    refine ih _ ?_ (fun o ho => hops o (List.mem_cons_of_mem _ ho))
    have hop := hops op (List.mem_cons_self _ _)
    cases op with
    | buy now rp fx cf s q => exact cashNonneg_buy now rp fx cf s q w hw
    | sell now rp fx cf s q =>
      refine cashNonneg_sell now rp fx cf s q w ?_ hw
      intro raw hraw
      subst hraw
      simpa [sellPriceNonneg] using hop
    | reset => exact cashNonneg_reset w hw

/-- C3 counterexample.  Starting from the fresh portfolio, a successful
crypto buy followed by a successful sell whose quoted price is negative
(the sell handler checks only that a quote exists, not its sign) drives
the cash balance to ₹-100,801: the claim as stated fails on the code. -/
theorem cash_goes_negative_on_negative_quote :
    isOkE (execute_buy_order mondayNoon (some 1000) 87 false "BTC-INR" 1 initialWorld).1 = true ∧
    isOkE (sell_asset mondayNoon (some (-200000)) 87 false "BTC-INR" 1
      (applyOp initialWorld (.buy mondayNoon (some 1000) 87 false "BTC-INR" 1))).1 = true ∧
    (runOps negQuoteOps).portfolio = some ⟨-100801, []⟩ := by
  have hn : normSymbol "BTC-INR" = "BTC-INR" := by decide
  have hm : is_market_open "BTC-INR" mondayNoon = true := by decide
  have hu : is_us_stock "BTC-INR" = false := by decide
  have hf0 : findHolding ([] : List Holding) "BTC-INR" = none := by decide
  have hf1 : findHolding [(⟨"BTC-INR", 1, 1000⟩ : Holding)] "BTC-INR" =
      some ⟨"BTC-INR", 1, 1000⟩ := by decide
  have h1 : execute_buy_order mondayNoon (some 1000) 87 false "BTC-INR" 1 initialWorld =
      (.ok ⟨"BTC-INR", 1, 1000, 1, 1001, 98999, 1, 1000, false, none⟩,
       ⟨true, some ⟨98999, [⟨"BTC-INR", 1, 1000⟩]⟩,
        [⟨"BTC-INR", .BUY, 1, 1000, 1000, 1⟩]⟩) := by
    norm_num [execute_buy_order, initialWorld, freshPortfolio, STARTING_CASH,
      get_or_create_portfolio, BROKERAGE_FEE_RATE, hn, hm, hu, hf0]
  have h2 : sell_asset mondayNoon (some (-200000)) 87 false "BTC-INR" 1
      (⟨true, some ⟨98999, [⟨"BTC-INR", 1, 1000⟩]⟩,
        [⟨"BTC-INR", .BUY, 1, 1000, 1000, 1⟩]⟩ : World) =
      (.ok ⟨"BTC-INR", 1, -200000, -200000, -200, -199800, -100801, 0, false, none⟩,
       ⟨true, some ⟨-100801, []⟩,
        [⟨"BTC-INR", .BUY, 1, 1000, 1000, 1⟩,
         ⟨"BTC-INR", .SELL, 1, -200000, -200000, -200⟩]⟩) := by
    norm_num [sell_asset, BROKERAGE_FEE_RATE, hn, hm, hu, hf1, removeFirstHolding,
      beq_self_eq_true]
  refine ⟨by rw [h1]; rfl, ?_, ?_⟩
  · simp only [applyOp, h1]
    rw [h2]
    rfl
  · simp only [runOps, negQuoteOps, List.foldl, applyOp, h1, h2]

/-- C3 amended.  For every sequence of operations from the fresh portfolio
in which every successful sell executes at a nonnegative (post-conversion)
price, the cash balance is never negative; the unamended statement is
refuted by a sell at a negative quoted price, which the handler accepts. -/
theorem cash_never_negative_with_nonneg_sell_prices (ops : List TradeOp)
    (hops : ∀ op ∈ ops, sellPriceNonneg op = true) :
    cashNonneg (runOps ops) := by
  rw [runOps]
  refine cashNonneg_foldl ops initialWorld ?_ hops
  intro p hp
  injection hp with hp
  subst hp
  norm_num [initialWorld, freshPortfolio, STARTING_CASH]

/-- C3 witness: a buy, a positive-price sell and a reset satisfy the
nonnegative-price condition, so the amended theorem applies. -/
theorem cash_never_negative_witness :
    (∀ op ∈ ([.buy mondayNoon (some 1000) 87 false "BTC-INR" 2,
              .sell mondayNoon (some 1200) 87 false "BTC-INR" 1,
              .reset] : List TradeOp), sellPriceNonneg op = true) ∧
    cashNonneg (runOps [.buy mondayNoon (some 1000) 87 false "BTC-INR" 2,
                        .sell mondayNoon (some 1200) 87 false "BTC-INR" 1,
                        .reset]) :=
  ⟨by decide, cash_never_negative_with_nonneg_sell_prices _ (by decide)⟩

/-! ### C4: rejected orders leave state unchanged -/

/-- C4 counterexample.  A buy rejected for insufficient funds, issued by a
user who has no portfolio yet, still mutates the datastore: the handler
lazily creates (and commits) the portfolio before the funds check, so the
state after the rejection differs from the state before it. -/
theorem rejected_buy_creates_portfolio :
    (execute_buy_order mondayNoon (some 200000) 87 false "BTC-INR" 1 noPortfolioWorld).1 =
      .error .insufficientFunds ∧
    (execute_buy_order mondayNoon (some 200000) 87 false "BTC-INR" 1 noPortfolioWorld).2 ≠
      noPortfolioWorld := by
  have hn : normSymbol "BTC-INR" = "BTC-INR" := by decide
  have hm : is_market_open "BTC-INR" mondayNoon = true := by decide
  have hu : is_us_stock "BTC-INR" = false := by decide
  have h : execute_buy_order mondayNoon (some 200000) 87 false "BTC-INR" 1 noPortfolioWorld =
      (.error .insufficientFunds, ⟨true, some freshPortfolio, []⟩) := by
    norm_num [execute_buy_order, noPortfolioWorld, get_or_create_portfolio,
      freshPortfolio, STARTING_CASH, BROKERAGE_FEE_RATE, hn, hm, hu]
  rw [h]
  exact ⟨rfl, by decide⟩

/-- C4 amended.  For a user who already has a portfolio, every order the
engine rejects as insufficient funds (buy), unknown holding (sell) or
insufficient holdings (sell) leaves the stored Portfolio, Holding and
Transaction state exactly unchanged; for a user with no portfolio, the buy
handler first lazily creates and commits an empty portfolio with the
starting balance, and that creation survives the rejection. -/
theorem rejected_orders_leave_state_unchanged
    (now : ISTTime) (rawPrice : Option ℚ) (usdInr : ℚ) (commitFails : Bool)
    (symIn : String) (qty : ℚ) (w : World) (p : Portfolio)
    (hp : w.portfolio = some p) :
    ((execute_buy_order now rawPrice usdInr commitFails symIn qty w).1 =
        .error .insufficientFunds →
      (execute_buy_order now rawPrice usdInr commitFails symIn qty w).2 = w) ∧
    ((sell_asset now rawPrice usdInr commitFails symIn qty w).1 = .error .noHolding →
      (sell_asset now rawPrice usdInr commitFails symIn qty w).2 = w) ∧
    ((sell_asset now rawPrice usdInr commitFails symIn qty w).1 =
        .error .insufficientHoldings →
      (sell_asset now rawPrice usdInr commitFails symIn qty w).2 = w) := by
  refine ⟨?_, ?_, ?_⟩
  all_goals simp only [execute_buy_order, sell_asset, get_or_create_portfolio, hp]
  all_goals repeat' split
  all_goals intro hc
  all_goals first
    | rfl
    | simp at hc

/-- C4 witness: selling a symbol that is not held is rejected and leaves
the concrete state `sellW0` unchanged. -/
theorem rejected_orders_leave_state_unchanged_witness :
    sellW0.portfolio = some ⟨98999, [⟨"BTC-INR", 2, 900⟩]⟩ ∧
    (((execute_buy_order mondayNoon (some 1000) 87 false "ETH-INR" 1 sellW0).1 =
        .error .insufficientFunds →
      (execute_buy_order mondayNoon (some 1000) 87 false "ETH-INR" 1 sellW0).2 = sellW0) ∧
     ((sell_asset mondayNoon (some 1000) 87 false "ETH-INR" 1 sellW0).1 = .error .noHolding →
      (sell_asset mondayNoon (some 1000) 87 false "ETH-INR" 1 sellW0).2 = sellW0) ∧
     ((sell_asset mondayNoon (some 1000) 87 false "ETH-INR" 1 sellW0).1 =
        .error .insufficientHoldings →
      (sell_asset mondayNoon (some 1000) 87 false "ETH-INR" 1 sellW0).2 = sellW0)) :=
  ⟨rfl, rejected_orders_leave_state_unchanged mondayNoon (some 1000) 87 false
    "ETH-INR" 1 sellW0 ⟨98999, [⟨"BTC-INR", 2, 900⟩]⟩ rfl⟩

/-! ### C5: the FX rate and the Transaction record -/

/-- Auxiliary fact: lazy portfolio creation never touches the ledger. -/
theorem get_or_create_transactions (w : World) :
    (get_or_create_portfolio w).2.transactions = w.transactions := by
  simp only [get_or_create_portfolio]
  split <;> rfl

/-- C5 counterexample.  Two successful foreign-equity buys executed with
different exchange rates (83 and 75) but the same converted price write
identical Transaction rows, so the rate used for an order is not captured
in (nor recoverable from) the Transaction record; the rate appears only in
the HTTP response. -/
theorem fx_rate_not_recorded_in_transaction :
    (execute_buy_order mondayNoon (some 150) 83 false "AAPL" 1 initialWorld).1 =
      .ok aaplRes83 ∧
    (execute_buy_order mondayNoon (some 166) 75 false "AAPL" 1 initialWorld).1 =
      .ok aaplRes75 ∧
    aaplRes83.usd_to_inr_rate = some 83 ∧
    aaplRes75.usd_to_inr_rate = some 75 ∧
    (execute_buy_order mondayNoon (some 150) 83 false "AAPL" 1 initialWorld).2.transactions =
      (execute_buy_order mondayNoon (some 166) 75 false "AAPL" 1 initialWorld).2.transactions := by
  have hn : normSymbol "AAPL" = "AAPL" := by decide
  have hm : is_market_open "AAPL" mondayNoon = true := by decide
  have hu : is_us_stock "AAPL" = true := by decide
  have hf0 : findHolding ([] : List Holding) "AAPL" = none := by decide
  have h1 : execute_buy_order mondayNoon (some 150) 83 false "AAPL" 1 initialWorld =
      (.ok aaplRes83, aaplW1) := by
    norm_num [execute_buy_order, initialWorld, freshPortfolio, STARTING_CASH,
      get_or_create_portfolio, BROKERAGE_FEE_RATE, hn, hm, hu, hf0,
      aaplRes83, aaplW1]
  have h2 : execute_buy_order mondayNoon (some 166) 75 false "AAPL" 1 initialWorld =
      (.ok aaplRes75, aaplW1) := by
    norm_num [execute_buy_order, initialWorld, freshPortfolio, STARTING_CASH,
      get_or_create_portfolio, BROKERAGE_FEE_RATE, hn, hm, hu, hf0,
      aaplRes75, aaplRes83, aaplW1]
  rw [h1, h2]
  exact ⟨rfl, rfl, rfl, rfl, rfl⟩

/-- C5 amended.  For every successful buy of a symbol classified as a US
stock, the converted base-currency price (native price × rate) is what the
Transaction row stores as price per share — together with the gross amount
and fee derived from it — and the rate itself is returned in the execution
response (`usd_to_inr_rate`); the Transaction row has no field for the
rate. -/
theorem fx_conversion_in_ledger_and_response
    (now : ISTTime) (raw usdInr : ℚ) (commitFails : Bool)
    (symIn : String) (qty : ℚ) (w : World) (res : BuyOk) (w' : World)
    (hus : is_us_stock (normSymbol symIn) = true)
    (h : execute_buy_order now (some raw) usdInr commitFails symIn qty w = (.ok res, w')) :
    res.usd_to_inr_rate = some usdInr ∧
    res.executed_price = raw * usdInr ∧
    w'.transactions = w.transactions ++
      [{ symbol := normSymbol symIn, type := .BUY, quantity := qty,
         price_per_share := raw * usdInr, total_amount := raw * usdInr * qty,
         brokerage_fee := raw * usdInr * qty * BROKERAGE_FEE_RATE }] := by
  simp only [execute_buy_order, hus, if_true, eq_self_iff_true] at h
  repeat' split at h
  all_goals simp only [Prod.mk.injEq, Except.ok.injEq, reduceCtorEq, false_and] at h
  all_goals (obtain ⟨h1, h2⟩ := h; subst h1; subst h2)
  all_goals refine ⟨rfl, rfl, ?_⟩
  all_goals rw [get_or_create_transactions]

/-- C5 witness: the spec's own scenario — native price 150 with rate 83
converts to ₹12450 — satisfies the amended theorem at a concrete input. -/
theorem fx_conversion_in_ledger_and_response_witness :
    is_us_stock (normSymbol "AAPL") = true ∧
    execute_buy_order mondayNoon (some 150) 83 false "AAPL" 1 initialWorld =
      (.ok aaplRes83, aaplW1) ∧
    (aaplRes83.usd_to_inr_rate = some 83 ∧
     aaplRes83.executed_price = 150 * 83 ∧
     aaplW1.transactions = initialWorld.transactions ++
       [{ symbol := normSymbol "AAPL", type := .BUY, quantity := 1,
          price_per_share := 150 * 83, total_amount := 150 * 83 * 1,
          brokerage_fee := 150 * 83 * 1 * BROKERAGE_FEE_RATE }]) := by
  have hn : normSymbol "AAPL" = "AAPL" := by decide
  have hm : is_market_open "AAPL" mondayNoon = true := by decide
  have hu : is_us_stock "AAPL" = true := by decide
  have hf0 : findHolding ([] : List Holding) "AAPL" = none := by decide
  have hus : is_us_stock (normSymbol "AAPL") = true := by rw [hn]; exact hu
  have hEval : execute_buy_order mondayNoon (some 150) 83 false "AAPL" 1 initialWorld =
      (.ok aaplRes83, aaplW1) := by
    norm_num [execute_buy_order, initialWorld, freshPortfolio, STARTING_CASH,
      get_or_create_portfolio, BROKERAGE_FEE_RATE, hn, hm, hu, hf0,
      aaplRes83, aaplW1]
  exact ⟨hus, hEval,
    fx_conversion_in_ledger_and_response mondayNoon 150 83 false "AAPL" 1
      initialWorld aaplRes83 aaplW1 hus hEval⟩

/-! ### C6: market-hours characterization -/

/-- C6.  The market-open check returns true for Crypto symbols always, and
for Foreign Equity symbols always; for Domestic Equity symbols it returns
true exactly on Monday-Friday (weekday < 5) at local times lying within
the fixed trading window, inclusive of both the 9:15:00 open instant and
the 15:30:00 close instant.  Asset classes here are the ones the
market-hours code itself assigns (crypto markers take precedence). -/
theorem is_market_open_characterization (s : String) (t : ISTTime) :
    is_market_open s t =
      match classifyMarketCalendar s with
      | .crypto => true
      | .domesticEquity =>
        decide (t.weekday < 5 ∧ nseOpenMicros ≤ todMicros t ∧ todMicros t ≤ nseCloseMicros)
      | .foreignEquity => true := by
  simp only [is_market_open, classifyMarketCalendar]
  cases hc : hasCryptoMarker (upStr s) <;> cases hi : hasIndianSuffix (upStr s) <;>
    simp only [Bool.false_eq_true, if_true, if_false]
  by_cases hw : 5 ≤ t.weekday
  · have hnl : ¬ t.weekday < 5 := not_lt.mpr hw
    simp [hw, hnl]
  · have hlt : t.weekday < 5 := not_le.mp hw
    simp [hw, hlt, Bool.decide_and]

/-! ### C7: agreement of the two suffix classifications -/

/-- C7 counterexample.  A symbol carrying both a crypto cross-currency
marker and a domestic-exchange suffix is classified Crypto by the
market-hours check (whose crypto test runs first) but Domestic Equity by
the conversion check (whose Indian-suffix test runs first): the two
classifications differ, and the market-hours decision treats the symbol
as always open — even on a Saturday — rather than window-gated. -/
theorem classification_disagrees_on_dual_marked_symbol :
    classifyMarketCalendar "A-USD.NS" = .crypto ∧
    classifyCurrencyNormalizer "A-USD.NS" = .domesticEquity ∧
    classifyMarketCalendar "A-USD.NS" ≠ classifyCurrencyNormalizer "A-USD.NS" ∧
    is_market_open "A-USD.NS" saturdayNoon = true := by decide

/-- C7 amended.  The two suffix classifications agree on every symbol that
does not carry both a crypto marker and a domestic-exchange suffix; and
for every symbol — dual-marked ones included — the conversion decision
`is_us_stock` coincides with "classified Foreign Equity by the market
calendar", so the conversion policy never disagrees with the calendar's
classification even where the two three-way classifiers differ. -/
theorem classification_agreement_amended (s : String) :
    (¬ (hasCryptoMarker (upStr s) = true ∧ hasIndianSuffix (upStr s) = true) →
      classifyMarketCalendar s = classifyCurrencyNormalizer s) ∧
    is_us_stock s = decide (classifyMarketCalendar s = .foreignEquity) := by
  cases hc : hasCryptoMarker (upStr s) <;> cases hi : hasIndianSuffix (upStr s) <;>
    simp [classifyMarketCalendar, classifyCurrencyNormalizer, is_us_stock, hc, hi]

/-- C7 witness: the amended agreement instantiated at the Domestic Equity
symbol TCS.NS, whose single marker lets the antecedent be discharged. -/
theorem classification_agreement_witness :
    (¬ (hasCryptoMarker (upStr "TCS.NS") = true ∧ hasIndianSuffix (upStr "TCS.NS") = true)) ∧
    classifyMarketCalendar "TCS.NS" = classifyCurrencyNormalizer "TCS.NS" :=
  ⟨by decide, (classification_agreement_amended "TCS.NS").1 (by decide)⟩

/-! ### C8: valuation fallback on a failed quote -/

/-- Indexing a mapped zip: element `i` exists exactly when both lists have
an element there, and is the image of the pair. -/
theorem zip_map_get? {α β γ : Type} (f : α × β → γ) :
    ∀ (xs : List α) (ys : List β) (i : Nat),
      ((xs.zip ys).map f).get? i =
        match xs.get? i, ys.get? i with
        | some a, some b => some (f (a, b))
        | _, _ => none := by
  intro xs
  induction xs with
  | nil => intro ys i; cases ys <;> cases i <;> rfl
  | cons x xs ih =>
    intro ys i
    cases ys with
    | nil =>
      cases i with
      | zero => rfl
      | succ n =>
        rcases hx : (x :: xs).get? (n + 1) with _ | a <;> simp [hx]
    | cons y ys =>
      cases i with
      | zero => rfl
      | succ n => simpa [List.zip_cons_cons] using ih ys n

/-- C8.  For every summarization of an existing portfolio, the call
succeeds; each holding whose quote lookup failed is valued at
`averageBuyPrice * quantity` with zero profit/loss and zero profit/loss
percent; each holding whose quote succeeded is valued at the fetched
(converted) price times its quantity; and the total portfolio value is the
cash plus the sum of the holdings' current values. -/
theorem summary_fallback_on_failed_quote
    (prices : List (Option ℚ)) (usdInr : ℚ) (w : World) (p : Portfolio)
    (hu : w.userExists = true) (hp : w.portfolio = some p) :
    ∃ s, (get_portfolio_summary prices usdInr w).1 = .ok s ∧
      s.total_holdings_value = (s.holdings.map (fun v => v.current_value)).sum ∧
      s.total_portfolio_value = p.virtual_cash + s.total_holdings_value ∧
      (∀ i h0, p.holdings.get? i = some h0 → prices.get? i = some none →
        ∃ v, s.holdings.get? i = some v ∧
          v.current_value = h0.average_buy_price * h0.quantity ∧
          v.profit_loss = 0 ∧ v.profit_loss_percent = 0) ∧
      (∀ i h0 pr, p.holdings.get? i = some h0 → prices.get? i = some (some pr) →
        ∃ v, s.holdings.get? i = some v ∧
          v.current_value =
            (if is_us_stock h0.asset_symbol then pr * usdInr else pr) * h0.quantity) := by
  simp only [get_portfolio_summary, get_or_create_portfolio, hp, hu,
    Bool.true_eq_false, if_false]
  refine ⟨_, rfl, rfl, rfl, ?_, ?_⟩
  · intro i h0 hh hpr
    rw [zip_map_get?, hh, hpr]
    exact ⟨_, rfl, rfl, rfl, rfl⟩
  · intro i h0 pr hh hpr
    rw [zip_map_get?, hh, hpr]
    exact ⟨_, rfl, rfl⟩

/-- C8 witness: a summary over one failed quote (the crypto holding) and
one fetched quote (the US stock holding at $100, rate 83). -/
theorem summary_fallback_witness :
    summaryW.userExists = true ∧
    summaryW.portfolio = some ⟨500, [⟨"BTC-INR", 1, 800⟩, ⟨"AAPL", 2, 8000⟩]⟩ ∧
    (∃ s, (get_portfolio_summary [none, some 100] 83 summaryW).1 = .ok s ∧
      s.total_holdings_value = (s.holdings.map (fun v => v.current_value)).sum ∧
      s.total_portfolio_value = (500 : ℚ) + s.total_holdings_value ∧
      (∀ i h0, ([⟨"BTC-INR", 1, 800⟩, ⟨"AAPL", 2, 8000⟩] : List Holding).get? i = some h0 →
          ([none, some 100] : List (Option ℚ)).get? i = some none →
        ∃ v, s.holdings.get? i = some v ∧
          v.current_value = h0.average_buy_price * h0.quantity ∧
          v.profit_loss = 0 ∧ v.profit_loss_percent = 0) ∧
      (∀ i h0 pr, ([⟨"BTC-INR", 1, 800⟩, ⟨"AAPL", 2, 8000⟩] : List Holding).get? i = some h0 →
          ([none, some 100] : List (Option ℚ)).get? i = some (some pr) →
        ∃ v, s.holdings.get? i = some v ∧
          v.current_value =
            (if is_us_stock h0.asset_symbol then pr * 83 else pr) * h0.quantity)) :=
  ⟨rfl, rfl,
    summary_fallback_on_failed_quote [none, some 100] 83 summaryW
      ⟨500, [⟨"BTC-INR", 1, 800⟩, ⟨"AAPL", 2, 8000⟩]⟩ rfl rfl⟩

/-! ### C9: the summary and datastore writes -/

/-- C9 counterexample.  Summarizing the portfolio of a user who has no
portfolio row yet is not write-free: `get_or_create_portfolio` creates and
commits a fresh portfolio during the call, so the stored state afterwards
differs from the state before. -/
theorem summary_creates_missing_portfolio :
    (get_portfolio_summary [] 83 noPortfolioWorld).2 ≠ noPortfolioWorld ∧
    (get_portfolio_summary [] 83 noPortfolioWorld).2 =
      { noPortfolioWorld with portfolio := some freshPortfolio } := by
  constructor
  · intro hcontra
    have : (some freshPortfolio : Option Portfolio) = none :=
      congrArg World.portfolio hcontra
    exact Option.noConfusion this
  · rfl

/-- C9 amended.  The summarization endpoint performs no writes for any
user who already has a portfolio — the stored Portfolio, Holding and
Transaction state is returned exactly unchanged — while for a user without
a portfolio it lazily creates (and persists) the fresh portfolio with the
starting balance and empty holdings, leaving the ledger untouched. -/
theorem summary_no_writes (prices : List (Option ℚ)) (usdInr : ℚ) (w : World) :
    (∀ p, w.portfolio = some p → (get_portfolio_summary prices usdInr w).2 = w) ∧
    (w.portfolio = none → w.userExists = true →
      (get_portfolio_summary prices usdInr w).2 =
        { w with portfolio := some freshPortfolio }) := by
  constructor
  · intro p hp
    simp only [get_portfolio_summary, get_or_create_portfolio, hp]
    split <;> rfl
  · intro hp hu
    simp only [get_portfolio_summary, get_or_create_portfolio, hp, hu,
      Bool.true_eq_false, if_false]

/-- C9 witness: summarizing the concrete state `sellW0`, which has a
portfolio, returns the datastore unchanged. -/
theorem summary_no_writes_witness :
    sellW0.portfolio = some ⟨98999, [⟨"BTC-INR", 2, 900⟩]⟩ ∧
    (get_portfolio_summary [some 1000] 83 sellW0).2 = sellW0 :=
  ⟨rfl, (summary_no_writes [some 1000] 83 sellW0).1 _ rfl⟩

/-! ### C10: sell rejection status codes -/

/-- C10 counterexample.  A sell that fails only because the quote is
unavailable is rejected with HTTP 503, not the 400 the claim assigns;
and a sell from a user without a portfolio is rejected with HTTP 400,
not 404. -/
theorem sell_error_statuses_counterexample :
    (sell_asset mondayNoon none 87 false "BTC-INR" 1 sellW0).1 =
      .error .priceUnavailable ∧
    sellHttpStatus .priceUnavailable = 503 ∧ (503 : Nat) ≠ 400 ∧
    (sell_asset mondayNoon (some 10) 87 false "BTC-INR" 1 noPortfolioWorld).1 =
      .error .noPortfolio ∧
    sellHttpStatus .noPortfolio = 400 ∧ (400 : Nat) ≠ 404 := by
  refine ⟨by decide, rfl, by decide, by decide, rfl, by decide⟩

/-- C10 amended.  For a quantity-valid sell request, the handler's
rejections map to statuses as follows, in its own check order: user not
found → 404; user found but no portfolio → 400; market closed → 400; no
holding for the symbol → 400; insufficient held quantity → 400; quote
unavailable → 503; and a failing commit → 500.  (The claim's 400 for
"price unavailable" and 404 for "portfolio not found" do not match the
code, which uses 503 and 400 respectively.) -/
theorem sell_error_statuses_amended
    (now : ISTTime) (rawPrice : Option ℚ) (usdInr : ℚ) (commitFails : Bool)
    (symIn : String) (qty : ℚ) (w : World) (hq : 0 < qty) :
    (w.userExists = false →
      (sell_asset now rawPrice usdInr commitFails symIn qty w).1 =
        .error .userNotFound ∧ sellHttpStatus .userNotFound = 404) ∧
    (w.userExists = true → w.portfolio = none →
      (sell_asset now rawPrice usdInr commitFails symIn qty w).1 =
        .error .noPortfolio ∧ sellHttpStatus .noPortfolio = 400) ∧
    (∀ p, w.userExists = true → w.portfolio = some p →
      (is_market_open (normSymbol symIn) now = false →
        (sell_asset now rawPrice usdInr commitFails symIn qty w).1 =
          .error .marketClosed ∧ sellHttpStatus .marketClosed = 400) ∧
      (is_market_open (normSymbol symIn) now = true →
        findHolding p.holdings (normSymbol symIn) = none →
        (sell_asset now rawPrice usdInr commitFails symIn qty w).1 =
          .error .noHolding ∧ sellHttpStatus .noHolding = 400) ∧
      (∀ h0, is_market_open (normSymbol symIn) now = true →
        findHolding p.holdings (normSymbol symIn) = some h0 →
        h0.quantity < qty →
        (sell_asset now rawPrice usdInr commitFails symIn qty w).1 =
          .error .insufficientHoldings ∧
        sellHttpStatus .insufficientHoldings = 400) ∧
      (∀ h0, is_market_open (normSymbol symIn) now = true →
        findHolding p.holdings (normSymbol symIn) = some h0 →
        ¬ h0.quantity < qty → rawPrice = none →
        (sell_asset now rawPrice usdInr commitFails symIn qty w).1 =
          .error .priceUnavailable ∧ sellHttpStatus .priceUnavailable = 503) ∧
      (∀ h0 raw, is_market_open (normSymbol symIn) now = true →
        findHolding p.holdings (normSymbol symIn) = some h0 →
        ¬ h0.quantity < qty → rawPrice = some raw → commitFails = true →
        (sell_asset now rawPrice usdInr commitFails symIn qty w).1 =
          .error .transactionFailure ∧
        sellHttpStatus .transactionFailure = 500)) := by
  have hq0 : ¬ qty ≤ 0 := not_le.mpr hq
  refine ⟨?_, ?_, ?_⟩
  · intro hu
    exact ⟨by simp [sell_asset, hq0, hu], rfl⟩
  · intro hu hp
    exact ⟨by simp [sell_asset, hq0, hu, hp], rfl⟩
  · intro p hu hp
    refine ⟨?_, ?_, ?_, ?_, ?_⟩
    · intro hm
      exact ⟨by simp [sell_asset, hq0, hu, hp, hm], rfl⟩
    · intro hm hf
      exact ⟨by simp [sell_asset, hq0, hu, hp, hm, hf], rfl⟩
    · intro h0 hm hf hlt
      exact ⟨by simp [sell_asset, hq0, hu, hp, hm, hf, hlt], rfl⟩
    · intro h0 hm hf hlt hr
      exact ⟨by simp [sell_asset, hq0, hu, hp, hm, hf, hlt, hr], rfl⟩
    · intro h0 raw hm hf hlt hr hcf
      exact ⟨by simp [sell_asset, hq0, hu, hp, hm, hf, hlt, hr, hcf], rfl⟩

/-- C10 witness: the amended status mapping applied to a concrete
quote-unavailable sell, yielding status 503. -/
theorem sell_error_statuses_witness :
    (0 : ℚ) < 1 ∧
    ((sell_asset mondayNoon none 87 false "BTC-INR" 1 sellW0).1 =
      .error .priceUnavailable ∧ sellHttpStatus .priceUnavailable = 503) := by
  refine ⟨by norm_num, ?_⟩
  refine ((sell_error_statuses_amended mondayNoon none 87 false "BTC-INR" 1 sellW0
    (by norm_num)).2.2 ⟨98999, [⟨"BTC-INR", 2, 900⟩]⟩ rfl rfl).2.2.2.1
    ⟨"BTC-INR", 2, 900⟩ (by decide) (by decide) (by decide) rfl

end Finwise
